import Mathlib

/-!
# Verification of the ProductSummaryImage component

A shallow embedding of `src/react/components/ProductSummaryImage/ProductImage.js`.
The component is a pure render function (plus one boolean error state cell),
so it embeds as Lean functions from props and ambient environment to an
element tree, and the error state as a fold over an event trace.

External collaborators (`changeImageUrlSize`, `DiscountBadge`,
`CollectionBadges`, `ImagePlaceholder`, CSS-handle strings) are recorded
symbolically: the embedding keeps the exact arguments the source passes to
them, as constructors of the element tree, without reimplementing them.
-/

namespace ProductSummaryImage

/-- One record of `sku.images`: `{ imageLabel, imageUrl }`. -/
structure ImageRec where
  imageLabel : String
  imageUrl : String
  deriving Repr, DecidableEq

/-- `product.sku.seller.commertialOffer` with its `ListPrice`/`Price`
fields (each possibly absent on the JS object). -/
structure CommertialOffer where
  ListPrice : Option Nat
  Price : Option Nat
  deriving Repr, DecidableEq

/-- One record of `product.productClusters`: `{ name }`. -/
structure Cluster where
  name : String
  deriving Repr, DecidableEq

/-- The `sku` object. `images` is `none` when the `images` key is absent
(the source reads it with `pathOr [] [.images] sku`); `imageImageUrl` is
the value at the path `sku.image.imageUrl`, `none` when any step of the
path is absent; `sellerCommertialOffer` is the value at
`sku.seller.commertialOffer`, `none` when the path is absent. -/
structure Sku where
  images : Option (List ImageRec)
  imageImageUrl : Option String
  sellerCommertialOffer : Option CommertialOffer
  deriving Repr, DecidableEq

/-- The product record from the product-summary context. -/
structure Product where
  productName : Option String
  productClusters : Option (List Cluster)
  sku : Option Sku
  deriving Repr, DecidableEq

/-- A JS value used as an image `src`: either a string URL, or the empty
object `{}` that `pathOr({}, [.image, .imageUrl], sku)` yields when the
path is absent. -/
inductive UrlVal where
  | str (s : String)
  | emptyObj
  deriving Repr, DecidableEq

/-- The `src` attribute finally given to an `<img>`: either the raw value,
or the symbolic application of the external `changeImageUrlSize`
collaborator to the value and the two computed dimensions. -/
inductive ImgSrc where
  | raw (u : UrlVal)
  | resized (u : UrlVal) (w : Nat) (h : Nat)
  deriving Repr, DecidableEq

/-- The inline style object the `Image` function builds when resizing. -/
structure ImgStyle where
  width : String
  height : Nat
  objectFit : String
  maxHeight : String
  maxWidth : Nat
  deriving Repr, DecidableEq

/-- An error callback identity. The top-level component wires the single
closure `() => setError(true)`; other values model unrelated callbacks. -/
inductive Callback where
  | setErrorTrue
  | other (n : Nat)
  deriving Repr, DecidableEq

/-- One rendered `<img>` element with the attributes the source sets. -/
structure ImgElement where
  src : ImgSrc
  style : Option ImgStyle
  loading : String
  alt : Option String
  className : String
  onError : Callback
  deriving Repr, DecidableEq

/-- The rendered element tree: the placeholder branch, the image container
(primary image plus optional hover image), and the two badge wrappers
recorded symbolically with the props the source passes them. -/
inductive Element where
  | placeholder (containerClass : String)
  | imgContainer (containerClass : String) (primary : ImgElement)
      (hover : Option ImgElement)
  | discountBadge (listPrice : Option Nat) (price : Option Nat)
      (label : Option String) (child : Element)
  | collectionBadges (texts : List String) (child : Element)
  deriving Repr, DecidableEq

/-!
## Badge decorators (source lines 21-42)
-/

/-- Source `maybeBadge({listPrice, price, label})(shouldShow)(component)`. -/
def maybeBadge (listPrice price : Option Nat) (label : Option String)
    (shouldShow : Bool) (component : Element) : Element :=
  if shouldShow then .discountBadge listPrice price label component
  else component

/-- Source `maybeCollection({productClusters})(shouldShow)(component)`: wraps iff
`shouldShow && productClusters && productClusters.length > 0`. -/
def maybeCollection (productClusters : Option (List Cluster))
    (shouldShow : Bool) (component : Element) : Element :=
  match productClusters with
  | some cls =>
      if shouldShow && cls.length > 0 then
        .collectionBadges (cls.map Cluster.name) component
      else component
  | none => component

/-!
## Label lookup (source lines 44-49)
-/

/-- Source `findImageByLabel(images, selectedLabel)`: `null` for a falsy label
(the empty string), else `images.find` by exact `imageLabel` equality. -/
def findImageByLabel (images : List ImageRec) (selectedLabel : String) :
    Option ImageRec :=
  if selectedLabel = "" then none
  else images.find? (fun i => i.imageLabel = selectedLabel)

/-!
## The Image renderer (source lines 51-87)
-/

/-- Source `Image({src, width, height, onError, alt, className})`: picks the dpi
from the device, decides `shouldResize = !!(width || height)`, and builds
the `<img>` attributes exactly as the JSX does. -/
def Image (isMobile : Bool) (src : UrlVal) (width height : Nat)
    (onError : Callback) (alt : Option String) (className : String) :
    ImgElement :=
  let dpi : Nat := if isMobile then 2 else 1
  let shouldResize : Bool := width ≠ 0 || height ≠ 0
  { src := if shouldResize then .resized src (width * dpi) (height * dpi)
           else .raw src
    style := if shouldResize then
        some { width := "100%", height := height, objectFit := "contain",
               maxHeight := "unset", maxWidth := width }
      else none
    loading := if shouldResize then "lazy" else "auto"
    alt := alt
    className := className
    onError := onError }

/-!
## Width/height resolution (source lines 111-115)
-/

/-- JS truthiness of an optional number: `undefined` and `0` are falsy. -/
def truthyNum : Option Nat → Bool
  | some n => n ≠ 0
  | none => false

/-- JS `a || b` on optional numbers. -/
def jsOr (a b : Option Nat) : Option Nat := if truthyNum a then a else b

/-- Lines 111-115: `[parseFloat(widthProp || heightProp || 0),
parseFloat(heightProp || widthProp || 0)]`. -/
def resolveSize (widthProp heightProp : Option Nat) : Nat × Nat :=
  ((jsOr widthProp (jsOr heightProp (some 0))).getD 0,
   (jsOr heightProp (jsOr widthProp (some 0))).getD 0)

/-!
## Content resolver (source lines 89-204)
-/

/-- The props `ProductImageContent` receives. -/
structure ContentProps where
  product : Option Product
  hasError : Bool
  showBadge : Bool
  badgeText : Option String
  displayMode : String
  mainImageLabel : String
  hoverImageLabel : String
  showCollections : Bool
  widthProp : Option Nat
  heightProp : Option Nat
  deriving Repr, DecidableEq

/-- Ambient inputs: the device flag from `useDevice()` and
`skuSelector.selectedImageVariationSKU` from `useProduct()` (the source
tests it with `== null`, true for both `null` and `undefined`). -/
structure Env where
  isMobile : Bool
  selectedImageVariationSKU : Option String
  deriving Repr, DecidableEq

/-- The container class the source composes from fixed CSS classes and
handles; the collaborator-provided handle strings are kept symbolic. -/
def containerClassname : String :=
  "dib relative imageContainer imageStackContainer hoverEffect"

/-- Image classes derived from `displayMode` (lines 148-151). -/
def legacyImageClasses (displayMode : String) : String :=
  if displayMode ≠ "inline" then "imageNormal" else "imageInline"

/-- The class of the primary image (line 168). -/
def imageClassname (displayMode : String) : String :=
  legacyImageClasses displayMode ++ " image"

/-- The class of the hover image (lines 170-175). -/
def hoverImageClassname (displayMode : String) : String :=
  "w-100 h-100 dn absolute top-0 left-0 z-999 image--hover "
    ++ legacyImageClasses displayMode ++ " hoverImage"

/-- Lines 139-146: the primary image URL. Defaults to
`pathOr({}, [.image, .imageUrl], sku)`; when
`selectedImageVariationSKU == null && mainImageLabel` the label lookup may
override it, and a lookup that finds nothing leaves it unchanged. -/
def resolveMainImageUrl (env : Env) (mainImageLabel : String)
    (sku : Sku) (images : List ImageRec) : UrlVal :=
  let defaultUrl : UrlVal :=
    match sku.imageImageUrl with
    | some s => .str s
    | none => .emptyObj
  if env.selectedImageVariationSKU = none && mainImageLabel ≠ "" then
    match findImageByLabel images mainImageLabel with
    | some mainImage => .str mainImage.imageUrl
    | none => defaultUrl
  else defaultUrl

/-- Source `ProductImageContent`: the whole body of lines 89-204,
translated branch by branch. -/
def ProductImageContent (env : Env) (p : ContentProps)
    (onError : Callback) : Element :=
  let name := p.product.bind Product.productName
  let productClusters := p.product.bind Product.productClusters
  let sku := p.product.bind Product.sku
  let wh := resolveSize p.widthProp p.heightProp
  match sku with
  | none => .placeholder containerClassname
  | some sk =>
    if p.hasError then .placeholder containerClassname
    else
      let images := sk.images.getD []
      let hoverImage := findImageByLabel images p.hoverImageLabel
      let imageUrl := resolveMainImageUrl env p.mainImageLabel sk images
      let commertialOffer := sk.sellerCommertialOffer
      let primary := Image env.isMobile imageUrl wh.1 wh.2 onError name
        (imageClassname p.displayMode)
      let hover : Option ImgElement :=
        match hoverImage with
        | some h =>
            if env.isMobile then none
            else some (Image env.isMobile (.str h.imageUrl) wh.1 wh.2
              onError name (hoverImageClassname p.displayMode))
        | none => none
      let img : Element := .imgContainer containerClassname primary hover
      maybeBadge (commertialOffer.bind CommertialOffer.ListPrice)
        (commertialOffer.bind CommertialOffer.Price) p.badgeText
        p.showBadge
        (maybeCollection productClusters p.showCollections img)

/-!
## Top-level component and error state (source lines 206-246)
-/

/-- The events the component's state reacts to: the image error callback
firing, and an ordinary re-render (which does not touch state). -/
inductive Event where
  | errorFired
  | rerender
  deriving Repr, DecidableEq

/-- One step of the error state: `onError = () => setError(true)` is the
only mutation path; a re-render leaves the state alone. -/
def stepError (s : Bool) : Event → Bool
  | .errorFired => true
  | .rerender => s

/-- The state after a trace of events, starting from
`useState(false)`. -/
def runEvents (events : List Event) : Bool :=
  events.foldl stepError false

/-- Firing a callback against the error state: the wired
`() => setError(true)` closure sets it; any other callback is not wired
to this cell and leaves it alone. -/
def fireCallback (cb : Callback) (s : Bool) : Bool :=
  match cb with
  | .setErrorTrue => true
  | .other _ => s

/-- The outer container class of `ProductImage` (lines 225-227). -/
def topImageClassName (displayMode : String) : String :=
  if displayMode ≠ "inline" then "imageContainer db w-100 center"
  else "imageContainer"

/-- The props `ProductImage` itself receives (width/height already taken
through the responsive-values collaborator to scalars). -/
structure TopProps where
  showBadge : Bool
  badgeText : Option String
  displayMode : String
  mainImageLabel : String
  hoverImageLabel : String
  showCollections : Bool
  width : Option Nat
  height : Option Nat
  deriving Repr, DecidableEq

/-- The output of `ProductImage`: the sizing `<div>` around the
content. -/
structure TopElement where
  className : String
  content : Element
  deriving Repr, DecidableEq

/-- Source `ProductImage` rendered at a given error-state value: it passes
`hasError = error` and the `() => setError(true)` callback down into
`ProductImageContent` (lines 229-245). -/
def ProductImage (env : Env) (product : Option Product)
    (tp : TopProps) (error : Bool) : TopElement :=
  { className := topImageClassName tp.displayMode
    content := ProductImageContent env
      { product := product
        hasError := error
        showBadge := tp.showBadge
        badgeText := tp.badgeText
        displayMode := tp.displayMode
        mainImageLabel := tp.mainImageLabel
        hoverImageLabel := tp.hoverImageLabel
        showCollections := tp.showCollections
        widthProp := tp.width
        heightProp := tp.height }
      .setErrorTrue }

/-!
## Observation helpers on the element tree
-/

/-- Number of `<img>` elements in the rendered composition. -/
def imgCount : Element → Nat
  | .placeholder _ => 0
  | .imgContainer _ _ hover => 1 + (if hover.isSome then 1 else 0)
  | .discountBadge _ _ _ child => imgCount child
  | .collectionBadges _ child => imgCount child

/-- The primary `<img>` of the composition, if any. -/
def primaryImg : Element → Option ImgElement
  | .placeholder _ => none
  | .imgContainer _ primary _ => some primary
  | .discountBadge _ _ _ child => primaryImg child
  | .collectionBadges _ child => primaryImg child

/-- The hover `<img>` of the composition, if any. -/
def hoverImg : Element → Option ImgElement
  | .placeholder _ => none
  | .imgContainer _ _ hover => hover
  | .discountBadge _ _ _ child => hoverImg child
  | .collectionBadges _ child => hoverImg child

/-- Whether the composition is the bare placeholder. -/
def isPlaceholder : Element → Bool
  | .placeholder _ => true
  | _ => false

/-- The underlying URL value of an `<img>` source. -/
def srcUrl : ImgSrc → UrlVal
  | .raw u => u
  | .resized u _ _ => u

/-!
## Shared lemmas
-/

theorem primaryImg_maybeBadge (lp pr : Option Nat) (lbl : Option String)
    (b : Bool) (c : Element) :
    primaryImg (maybeBadge lp pr lbl b c) = primaryImg c := by
  unfold maybeBadge; split <;> rfl

theorem primaryImg_maybeCollection (cls : Option (List Cluster)) (b : Bool)
    (c : Element) :
    primaryImg (maybeCollection cls b c) = primaryImg c := by
  cases cls with
  | none => rfl
  | some l =>
    simp only [maybeCollection]
    split <;> rfl

theorem hoverImg_maybeBadge (lp pr : Option Nat) (lbl : Option String)
    (b : Bool) (c : Element) :
    hoverImg (maybeBadge lp pr lbl b c) = hoverImg c := by
  unfold maybeBadge; split <;> rfl

theorem hoverImg_maybeCollection (cls : Option (List Cluster)) (b : Bool)
    (c : Element) :
    hoverImg (maybeCollection cls b c) = hoverImg c := by
  cases cls with
  | none => rfl
  | some l =>
    simp only [maybeCollection]
    split <;> rfl

theorem imgCount_maybeBadge (lp pr : Option Nat) (lbl : Option String)
    (b : Bool) (c : Element) :
    imgCount (maybeBadge lp pr lbl b c) = imgCount c := by
  unfold maybeBadge; split <;> rfl

theorem imgCount_maybeCollection (cls : Option (List Cluster)) (b : Bool)
    (c : Element) :
    imgCount (maybeCollection cls b c) = imgCount c := by
  cases cls with
  | none => rfl
  | some l =>
    simp only [maybeCollection]
    split <;> rfl

theorem isPlaceholder_maybeBadge_of (lp pr : Option Nat)
    (lbl : Option String) (b : Bool) (c : Element)
    (h : isPlaceholder c = false) :
    isPlaceholder (maybeBadge lp pr lbl b c) = false := by
  unfold maybeBadge; split
  · rfl
  · exact h

theorem isPlaceholder_maybeCollection_of (cls : Option (List Cluster))
    (b : Bool) (c : Element) (h : isPlaceholder c = false) :
    isPlaceholder (maybeCollection cls b c) = false := by
  cases cls with
  | none => exact h
  | some l =>
    simp only [maybeCollection]
    split
    · rfl
    · exact h

/-- The early-return branch of `ProductImageContent` (lines 128-134). -/
theorem content_placeholder_of_skuNone_or_error (env : Env)
    (p : ContentProps) (cb : Callback)
    (h : p.product.bind Product.sku = none ∨ p.hasError = true) :
    ProductImageContent env p cb = .placeholder containerClassname := by
  unfold ProductImageContent
  rcases h with h | h
  · simp [h]
  · cases hsku : p.product.bind Product.sku <;> simp [h]

/-- The non-placeholder branch of `ProductImageContent`, fully unfolded. -/
theorem content_eq_of_sku (env : Env) (p : ContentProps) (cb : Callback)
    (sk : Sku) (h1 : p.product.bind Product.sku = some sk)
    (h2 : p.hasError = false) :
    ProductImageContent env p cb =
      maybeBadge (sk.sellerCommertialOffer.bind CommertialOffer.ListPrice)
        (sk.sellerCommertialOffer.bind CommertialOffer.Price) p.badgeText
        p.showBadge
        (maybeCollection (p.product.bind Product.productClusters)
          p.showCollections
          (.imgContainer containerClassname
            (Image env.isMobile
              (resolveMainImageUrl env p.mainImageLabel sk (sk.images.getD []))
              (resolveSize p.widthProp p.heightProp).1
              (resolveSize p.widthProp p.heightProp).2 cb
              (p.product.bind Product.productName)
              (imageClassname p.displayMode))
            (match findImageByLabel (sk.images.getD []) p.hoverImageLabel with
             | some h =>
                 if env.isMobile then none
                 else some (Image env.isMobile (.str h.imageUrl)
                   (resolveSize p.widthProp p.heightProp).1
                   (resolveSize p.widthProp p.heightProp).2 cb
                   (p.product.bind Product.productName)
                   (hoverImageClassname p.displayMode))
             | none => none))) := by
  unfold ProductImageContent
  simp only [h1, h2]
  rfl

theorem Image_onError (isMobile : Bool) (u : UrlVal) (w h : Nat)
    (cb : Callback) (alt : Option String) (cls : String) :
    (Image isMobile u w h cb alt cls).onError = cb := rfl

theorem srcUrl_Image (isMobile : Bool) (u : UrlVal) (w h : Nat)
    (cb : Callback) (alt : Option String) (cls : String) :
    srcUrl (Image isMobile u w h cb alt cls).src = u := by
  simp only [Image]
  split <;> rfl

theorem resolveMainImageUrl_override (env : Env) (lbl : String) (sk : Sku)
    (images : List ImageRec) (m : ImageRec)
    (hsel : env.selectedImageVariationSKU = none) (hlbl : lbl ≠ "")
    (hfind : findImageByLabel images lbl = some m) :
    resolveMainImageUrl env lbl sk images = .str m.imageUrl := by
  unfold resolveMainImageUrl
  simp [hsel, hlbl, hfind]

theorem resolveMainImageUrl_default (env : Env) (lbl : String) (sk : Sku)
    (images : List ImageRec)
    (h : env.selectedImageVariationSKU ≠ none ∨
      findImageByLabel images lbl = none) :
    resolveMainImageUrl env lbl sk images =
      (match sk.imageImageUrl with
       | some s => UrlVal.str s
       | none => UrlVal.emptyObj) := by
  unfold resolveMainImageUrl
  rcases h with h | h
  · simp [h]
  · by_cases hsel : env.selectedImageVariationSKU = none
    · by_cases hlbl : lbl = ""
      · simp [hlbl]
      · simp [hsel, hlbl, h]
    · simp [hsel]

/-!
## Claim theorems
-/

/-- C1: for every product record and display options, if the sku is absent
or `hasError` is true, `ProductImageContent` renders the placeholder inside
the sizing container and nothing else — no image, badge or URL resolution
appears in the output; in particular, a product with no sku always renders
the placeholder. -/
theorem C1_placeholder_when_no_sku_or_error (env : Env) (p : ContentProps)
    (cb : Callback)
    (h : p.product.bind Product.sku = none ∨ p.hasError = true) :
    ProductImageContent env p cb = .placeholder containerClassname :=
  content_placeholder_of_skuNone_or_error env p cb h

/-- Witness for C1 at a concrete product with no sku. -/
theorem C1_witness :
    ProductImageContent ⟨false, none⟩
      ⟨some ⟨some "shirt", some [⟨"col"⟩], none⟩, false, true, some "10%",
        "normal", "main", "hover", true, some 100, some 50⟩
      .setErrorTrue = .placeholder containerClassname :=
  C1_placeholder_when_no_sku_or_error _ _ _ (Or.inl rfl)

/-- C2: the error state starts `false`, the error callback step sets it
`true`, no event ever resets it (appending any event to a trace that
reached `true` keeps it `true`), and at any such state the top-level
component renders the placeholder regardless of the product, the props, or
what the image sources would now load. -/
theorem C2_error_state_latches :
    runEvents [] = false ∧
    (∀ s : Bool, stepError s .errorFired = true) ∧
    (∀ (evs : List Event) (e : Event),
      runEvents evs = true → runEvents (evs ++ [e]) = true) ∧
    (∀ (evs : List Event) (env : Env) (product : Option Product)
      (tp : TopProps), runEvents evs = true →
      (ProductImage env product tp (runEvents evs)).content =
        .placeholder containerClassname) := by
  refine ⟨rfl, fun s => rfl, ?_, ?_⟩
  · intro evs e h
    unfold runEvents at h ⊢
    rw [List.foldl_append, h]
    cases e <;> rfl
  · intro evs env product tp h
    rw [h]
    unfold ProductImage
    exact content_placeholder_of_skuNone_or_error _ _ _ (Or.inr rfl)

/-- Witness for C2: a concrete trace that fails once then re-renders stays
in the error state and renders the placeholder. -/
theorem C2_witness :
    runEvents [Event.errorFired, Event.rerender] = true ∧
    (ProductImage ⟨false, none⟩
      (some ⟨some "shirt", none, some ⟨some [], some "url", none⟩⟩)
      ⟨true, none, "normal", "", "", false, some 100, none⟩
      (runEvents [Event.errorFired, Event.rerender])).content =
      .placeholder containerClassname :=
  ⟨by decide,
    C2_error_state_latches.2.2.2 [Event.errorFired, Event.rerender] _ _ _
      (by decide)⟩

/-- C3: the resolved width/height pair falls back mutually: one supplied
value fills both slots, no supplied value resolves both to 0, and at the
(0, 0) resolution the image renderer leaves the source raw and applies no
sizing style (resize inactive). -/
theorem C3_size_mutual_fallback (n : Nat) (isMobile : Bool) (src : UrlVal)
    (cb : Callback) (alt : Option String) (cls : String) :
    resolveSize (some n) none = (n, n) ∧
    resolveSize none (some n) = (n, n) ∧
    resolveSize none none = (0, 0) ∧
    (Image isMobile src (resolveSize none none).1
      (resolveSize none none).2 cb alt cls).src = .raw src ∧
    (Image isMobile src (resolveSize none none).1
      (resolveSize none none).2 cb alt cls).style = none := by
  refine ⟨?_, ?_, rfl, rfl, rfl⟩
  · unfold resolveSize jsOr truthyNum
    by_cases h : n = 0 <;> simp [h]
  · unfold resolveSize jsOr truthyNum
    by_cases h : n = 0 <;> simp [h]

/-- C7: each badge decorator applied with its flag `false` returns the
original element unchanged. -/
theorem C7_decorators_identity_when_flag_false (lp pr : Option Nat)
    (lbl : Option String) (cls : Option (List Cluster)) (c : Element) :
    maybeBadge lp pr lbl false c = c ∧ maybeCollection cls false c = c := by
  refine ⟨rfl, ?_⟩
  unfold maybeCollection
  cases cls with
  | none => rfl
  | some l => simp

/-- C4: whenever a sku renders, the primary image source defaults to
`sku.image.imageUrl`; with no selected variation and a non-empty
`mainImageLabel` matching an image, the source is overridden to the
matched image's URL; a lookup that finds nothing, or a present selected
variation, leaves the default unchanged. -/
theorem C4_main_image_url_resolution (env : Env) (p : ContentProps)
    (cb : Callback) (sk : Sku)
    (h1 : p.product.bind Product.sku = some sk)
    (h2 : p.hasError = false) :
    ∃ pi : ImgElement,
      primaryImg (ProductImageContent env p cb) = some pi ∧
      (env.selectedImageVariationSKU = none → p.mainImageLabel ≠ "" →
        ∀ m : ImageRec,
          findImageByLabel (sk.images.getD []) p.mainImageLabel = some m →
          srcUrl pi.src = .str m.imageUrl) ∧
      (findImageByLabel (sk.images.getD []) p.mainImageLabel = none →
        srcUrl pi.src =
          (match sk.imageImageUrl with
           | some s => UrlVal.str s
           | none => UrlVal.emptyObj)) ∧
      (env.selectedImageVariationSKU ≠ none →
        srcUrl pi.src =
          (match sk.imageImageUrl with
           | some s => UrlVal.str s
           | none => UrlVal.emptyObj)) := by
  rw [content_eq_of_sku env p cb sk h1 h2, primaryImg_maybeBadge,
    primaryImg_maybeCollection]
  refine ⟨_, rfl, ?_, ?_, ?_⟩
  · intro hsel hlbl m hfind
    rw [srcUrl_Image,
      resolveMainImageUrl_override env p.mainImageLabel sk _ m hsel hlbl
        hfind]
  · intro hfind
    rw [srcUrl_Image, resolveMainImageUrl_default env p.mainImageLabel sk _
      (Or.inr hfind)]
  · intro hsel
    rw [srcUrl_Image, resolveMainImageUrl_default env p.mainImageLabel sk _
      (Or.inl hsel)]

/-- Witness for C4: a concrete sku whose image list holds a label match;
the primary source is the matched URL, not the default. -/
theorem C4_witness :
    ∃ pi : ImgElement,
      primaryImg (ProductImageContent ⟨false, none⟩
        ⟨some ⟨some "shirt", none,
          some ⟨some [⟨"main", "labelUrl"⟩], some "defUrl", none⟩⟩,
          false, true, none, "normal", "main", "", false, none, none⟩
        .setErrorTrue) = some pi ∧
      srcUrl pi.src = .str "labelUrl" := by
  obtain ⟨pi, hpi, hov, _, _⟩ :=
    C4_main_image_url_resolution ⟨false, none⟩
      ⟨some ⟨some "shirt", none,
        some ⟨some [⟨"main", "labelUrl"⟩], some "defUrl", none⟩⟩,
        false, true, none, "normal", "main", "", false, none, none⟩
      .setErrorTrue ⟨some [⟨"main", "labelUrl"⟩], some "defUrl", none⟩
      rfl rfl
  exact ⟨pi, hpi, hov rfl (by decide) ⟨"main", "labelUrl"⟩ (by decide)⟩

/-- C5: an empty hover label attempts no lookup, a found hover image has
exactly the requested label, and the rendered composition has two image
elements exactly when a hover image was resolved on a non-mobile device,
one otherwise. -/
theorem C5_hover_image_and_count (env : Env) (p : ContentProps)
    (cb : Callback) (sk : Sku)
    (h1 : p.product.bind Product.sku = some sk)
    (h2 : p.hasError = false) :
    (∀ images : List ImageRec, findImageByLabel images "" = none) ∧
    (∀ (images : List ImageRec) (lbl : String) (m : ImageRec),
      findImageByLabel images lbl = some m → m.imageLabel = lbl) ∧
    imgCount (ProductImageContent env p cb) =
      (if (findImageByLabel (sk.images.getD [])
            p.hoverImageLabel).isSome = true ∧ env.isMobile = false
       then 2 else 1) := by
  refine ⟨fun images => rfl, ?_, ?_⟩
  · intro images lbl m hfind
    unfold findImageByLabel at hfind
    split at hfind
    · exact absurd hfind (by simp)
    · have := List.find?_some hfind
      exact of_decide_eq_true this
  · rw [content_eq_of_sku env p cb sk h1 h2, imgCount_maybeBadge,
      imgCount_maybeCollection]
    cases hfind : findImageByLabel (sk.images.getD []) p.hoverImageLabel
      with
    | none => simp [imgCount, hfind]
    | some hi =>
      cases hmob : env.isMobile <;> simp [imgCount, hfind, hmob]

/-- Witness for C5: a concrete sku with a matching hover label on a
non-mobile device renders two image elements. -/
theorem C5_witness :
    imgCount (ProductImageContent ⟨false, none⟩
      ⟨some ⟨some "shirt", none,
        some ⟨some [⟨"hover", "hoverUrl"⟩], some "defUrl", none⟩⟩,
        false, true, none, "normal", "", "hover", false, none, none⟩
      .setErrorTrue) = 2 := by
  have h :=
    (C5_hover_image_and_count ⟨false, none⟩
      ⟨some ⟨some "shirt", none,
        some ⟨some [⟨"hover", "hoverUrl"⟩], some "defUrl", none⟩⟩,
        false, true, none, "normal", "", "hover", false, none, none⟩
      .setErrorTrue ⟨some [⟨"hover", "hoverUrl"⟩], some "defUrl", none⟩
      rfl rfl).2.2
  rw [h]
  decide

/-- C6: with `showBadge` and `showCollections` both set and a non-empty
cluster list, the discount badge is the outermost wrapper with the
collection badges immediately inside it around the image container, the
collection labels are the cluster names in order; and the collections wrap
is the identity when its flag is false or the cluster list is empty. -/
theorem C6_badge_wrap_order (env : Env) (p : ContentProps) (cb : Callback)
    (sk : Sku) (cls : List Cluster)
    (h1 : p.product.bind Product.sku = some sk)
    (h2 : p.hasError = false) (h3 : p.showBadge = true)
    (h4 : p.showCollections = true)
    (h5 : p.product.bind Product.productClusters = some cls)
    (h6 : cls ≠ []) :
    (∃ base : Element,
      ProductImageContent env p cb =
        .discountBadge
          (sk.sellerCommertialOffer.bind CommertialOffer.ListPrice)
          (sk.sellerCommertialOffer.bind CommertialOffer.Price)
          p.badgeText (.collectionBadges (cls.map Cluster.name) base) ∧
      ∃ pimg hov, base = .imgContainer containerClassname pimg hov) ∧
    (∀ c : Element, maybeCollection (some cls) false c = c) ∧
    (∀ (b : Bool) (c : Element), maybeCollection (some []) b c = c) := by
  refine ⟨?_, fun c => by simp [maybeCollection],
    fun b c => by simp [maybeCollection]⟩
  rw [content_eq_of_sku env p cb sk h1 h2, h5, h3, h4]
  have hlen : 0 < cls.length := List.length_pos.mpr h6
  unfold maybeBadge maybeCollection
  simp only [hlen, decide_eq_true_eq, if_pos, Bool.true_and,
    decide_eq_true, if_true]
  exact ⟨_, rfl, _, _, rfl⟩

/-- Witness for C6 at a concrete product: one cluster, both flags set; the
output is the discount badge around the collection badges around the image
container. -/
theorem C6_witness :
    ∃ base : Element,
      ProductImageContent ⟨false, none⟩
        ⟨some ⟨some "shirt", some [⟨"summer"⟩],
          some ⟨some [], some "defUrl", some ⟨some 100, some 80⟩⟩⟩,
          false, true, some "10%", "normal", "", "", true, none, none⟩
        .setErrorTrue =
      .discountBadge (some 100) (some 80) (some "10%")
        (.collectionBadges ["summer"] base) := by
  obtain ⟨⟨base, hb, _⟩, _⟩ :=
    C6_badge_wrap_order ⟨false, none⟩
      ⟨some ⟨some "shirt", some [⟨"summer"⟩],
        some ⟨some [], some "defUrl", some ⟨some 100, some 80⟩⟩⟩,
        false, true, some "10%", "normal", "", "", true, none, none⟩
      .setErrorTrue ⟨some [], some "defUrl", some ⟨some 100, some 80⟩⟩
      [⟨"summer"⟩] rfl rfl rfl rfl rfl (by decide)
  exact ⟨base, hb⟩

/-- C8 counterexample: with resize inactive (`width = height = 0`) the
code sets the loading attribute to the string auto, not eager. -/
theorem C8_counterexample :
    (Image false (.str "u") 0 0 .setErrorTrue none "c").loading = "auto" ∧
    ¬((Image false (.str "u") 0 0 .setErrorTrue none "c").loading =
        "eager") :=
  ⟨rfl, by decide⟩

/-- C8 (amended): the pixel-density hint is 2 on mobile and 1 otherwise;
resize is active iff width or height is non-zero, and when active the
source is the size normalizer applied at `width * density` and
`height * density`, the sizing style (full width, explicit height, contain
fit, unset max-height, max-width = width) is set and loading is lazy; when
inactive the source is raw, no style is set, and the loading attribute is
auto (the browser default), not the explicit eager value. -/
theorem C8_image_renderer_amended (isMobile : Bool) (src : UrlVal)
    (width height : Nat) (cb : Callback) (alt : Option String)
    (cls : String) :
    (¬(width = 0 ∧ height = 0) →
      (Image isMobile src width height cb alt cls).src =
        .resized src (width * (if isMobile then 2 else 1))
          (height * (if isMobile then 2 else 1)) ∧
      (Image isMobile src width height cb alt cls).style =
        some { width := "100%", height := height, objectFit := "contain",
               maxHeight := "unset", maxWidth := width } ∧
      (Image isMobile src width height cb alt cls).loading = "lazy") ∧
    ((width = 0 ∧ height = 0) →
      (Image isMobile src width height cb alt cls).src = .raw src ∧
      (Image isMobile src width height cb alt cls).style = none ∧
      (Image isMobile src width height cb alt cls).loading = "auto") := by
  by_cases hw : width = 0 <;> by_cases hh : height = 0 <;>
    simp [Image, hw, hh]

/-- Witness for C8: concrete active (mobile, width 100) and inactive
renders. -/
theorem C8_witness :
    (Image true (.str "u") 100 0 .setErrorTrue none "c").src =
      .resized (.str "u") 200 0 ∧
    (Image false (.str "u") 0 0 .setErrorTrue none "c").src =
      .raw (.str "u") := by
  constructor
  · have h :=
      ((C8_image_renderer_amended true (.str "u") 100 0 .setErrorTrue none
        "c").1 (by decide)).1
    simpa using h
  · exact ((C8_image_renderer_amended false (.str "u") 0 0 .setErrorTrue
      none "c").2 (by decide)).1

/-- C9: when both a primary and a hover image are rendered, both carry the
same error callback — the one the top-level component wires — firing it
from either image sets the error state to true, and the component at the
true state renders the placeholder. -/
theorem C9_same_callback_both_images (env : Env) (product : Product)
    (tp : TopProps) (sk : Sku) (hImg : ImageRec)
    (h1 : product.sku = some sk)
    (h2 : findImageByLabel (sk.images.getD []) tp.hoverImageLabel =
      some hImg)
    (h3 : env.isMobile = false) :
    ∃ pi hi : ImgElement,
      primaryImg (ProductImage env (some product) tp false).content =
        some pi ∧
      hoverImg (ProductImage env (some product) tp false).content =
        some hi ∧
      pi.onError = hi.onError ∧ pi.onError = .setErrorTrue ∧
      (∀ s : Bool, fireCallback pi.onError s = true) ∧
      (ProductImage env (some product) tp true).content =
        .placeholder containerClassname := by
  unfold ProductImage
  dsimp only
  rw [content_eq_of_sku env
    ⟨some product, false, tp.showBadge, tp.badgeText, tp.displayMode,
      tp.mainImageLabel, tp.hoverImageLabel, tp.showCollections, tp.width,
      tp.height⟩ .setErrorTrue sk h1 rfl]
  simp only [primaryImg_maybeBadge, primaryImg_maybeCollection,
    hoverImg_maybeBadge, hoverImg_maybeCollection, h2, h3]
  exact ⟨_, _, rfl, rfl, rfl, rfl, fun s => rfl,
    content_placeholder_of_skuNone_or_error _ _ _ (Or.inr rfl)⟩

/-- Witness for C9: at a concrete product with a hover match on a
non-mobile device, the two rendered images carry one and the same wired
callback. -/
theorem C9_witness :
    ∃ pi hi : ImgElement,
      primaryImg (ProductImage ⟨false, none⟩
        (some ⟨some "shirt", none,
          some ⟨some [⟨"hov", "hoverUrl"⟩], some "defUrl", none⟩⟩)
        ⟨true, none, "normal", "", "hov", false, none, none⟩
        false).content = some pi ∧
      hoverImg (ProductImage ⟨false, none⟩
        (some ⟨some "shirt", none,
          some ⟨some [⟨"hov", "hoverUrl"⟩], some "defUrl", none⟩⟩)
        ⟨true, none, "normal", "", "hov", false, none, none⟩
        false).content = some hi ∧
      pi.onError = hi.onError := by
  obtain ⟨pi, hi, hp, hh, heq, _⟩ :=
    C9_same_callback_both_images ⟨false, none⟩
      ⟨some "shirt", none,
        some ⟨some [⟨"hov", "hoverUrl"⟩], some "defUrl", none⟩⟩
      ⟨true, none, "normal", "", "hov", false, none, none⟩
      ⟨some [⟨"hov", "hoverUrl"⟩], some "defUrl", none⟩
      ⟨"hov", "hoverUrl"⟩ rfl (by decide) rfl
  exact ⟨pi, hi, hp, hh, heq⟩

/-- C10: a present sku whose `sku.image.imageUrl` path is absent does not
render the placeholder: an image element is rendered, and when the label
override does not fire its source is the empty-object default of
`pathOr`. -/
theorem C10_missing_url_not_placeholder (env : Env) (p : ContentProps)
    (cb : Callback) (sk : Sku)
    (h1 : p.product.bind Product.sku = some sk)
    (h2 : p.hasError = false) (h3 : sk.imageImageUrl = none) :
    isPlaceholder (ProductImageContent env p cb) = false ∧
    ∃ pi : ImgElement,
      primaryImg (ProductImageContent env p cb) = some pi ∧
      ((env.selectedImageVariationSKU ≠ none ∨
        findImageByLabel (sk.images.getD []) p.mainImageLabel = none) →
       srcUrl pi.src = .emptyObj) := by
  rw [content_eq_of_sku env p cb sk h1 h2]
  constructor
  · exact isPlaceholder_maybeBadge_of _ _ _ _ _
      (isPlaceholder_maybeCollection_of _ _ _ rfl)
  · rw [primaryImg_maybeBadge, primaryImg_maybeCollection]
    refine ⟨_, rfl, fun h => ?_⟩
    rw [srcUrl_Image,
      resolveMainImageUrl_default env p.mainImageLabel sk _ h, h3]

/-- Witness for C10: a concrete sku with no `image.imageUrl` path renders
an image element whose source is the empty-object default. -/
theorem C10_witness :
    isPlaceholder (ProductImageContent ⟨false, none⟩
      ⟨some ⟨some "shirt", none, some ⟨some [], none, none⟩⟩,
        false, true, none, "normal", "", "", false, none, none⟩
      .setErrorTrue) = false ∧
    ∃ pi : ImgElement,
      primaryImg (ProductImageContent ⟨false, none⟩
        ⟨some ⟨some "shirt", none, some ⟨some [], none, none⟩⟩,
          false, true, none, "normal", "", "", false, none, none⟩
        .setErrorTrue) = some pi ∧
      srcUrl pi.src = .emptyObj := by
  obtain ⟨hnp, pi, hpi, hurl⟩ :=
    C10_missing_url_not_placeholder ⟨false, none⟩
      ⟨some ⟨some "shirt", none, some ⟨some [], none, none⟩⟩,
        false, true, none, "normal", "", "", false, none, none⟩
      .setErrorTrue ⟨some [], none, none⟩ rfl rfl rfl
  exact ⟨hnp, pi, hpi, hurl (Or.inr (by decide))⟩

end ProductSummaryImage
